import Mathlib

/-
Verification of the await-me async outcome normalizer and its re-export shim.

The repository's own source (src/index.ts) is a re-export shim over the
upstream await-me-ts engine.  The normalizer itself (return styles,
conditional handler chain, logging side effects) is documented in the spec
and the bundled README but its implementation is not part of this
repository; those parts are therefore modelled from the spec, as marked on
each definition.  Side effects are embedded as an explicit event trace:
invoking a handler returns the shaped Outcome together with the ordered
list of side-effect events (log messages, fn calls, chain actions, the
default handler) that the invocation executes.
-/

namespace AwaitMe

/-- Modelled from the spec: the ReturnStyle enumeration (spec section 3),
with the five variants of the return-style table in section 4.1. -/
inductive ReturnStyle where
  | FALSE_STYLE
  | GO_STYLE
  | BOOLEAN
  | ONLY_ERROR
  | ERROR_STYLE
deriving DecidableEq, Repr

/-- Modelled from the spec: the eventual outcome of a PendingOperation
(spec section 3): it either produces a value or fails with an error value.
The normalizer only ever sees this resolved outcome. -/
inductive OpResult (α ε : Type) where
  | ok : α → OpResult α ε
  | fail : ε → OpResult α ε
deriving DecidableEq, Repr

/-- Modelled from the spec: the possible Outcome shapes of the return-style
table in section 4.1: a bare value, a Go-style pair, a boolean literal, a
numeric exit code, or the error object itself. -/
inductive Outcome (α ε : Type) where
  | value : α → Outcome α ε
  | pair : Option ε → Option α → Outcome α ε
  | bool : Bool → Outcome α ε
  | exitCode : Nat → Outcome α ε
  | errValue : ε → Outcome α ε
deriving DecidableEq, Repr

/-- Modelled from the spec: a side-effect descriptor of a LoggingSpec
(spec section 3): an fn together with optional params (default: no
params).  The fn is identified by a label of type L and its params are
modelled as a list of naturals. -/
structure FnDesc (L : Type) where
  fn : L
  params : List Nat
deriving DecidableEq, Repr

/-- Modelled from the spec: one element of a LogAction sequence: a string
message or a side-effect descriptor. -/
inductive LogItem (L : Type) where
  | str : String → LogItem L
  | desc : FnDesc L → LogItem L
deriving DecidableEq, Repr

/-- Modelled from the spec: a LogAction (spec section 3): a string, a
single fn descriptor, or an ordered sequence of such items, all executed
in order on the applicable outcome. -/
inductive LogAction (L : Type) where
  | str : String → LogAction L
  | desc : FnDesc L → LogAction L
  | seq : List (LogItem L) → LogAction L
deriving DecidableEq, Repr

/-- Modelled from the spec: a LoggingSpec (spec section 3): either a plain
message string (treated as a success-only message, section 4.1 step 2) or
a structured record with optional success and error branches. -/
inductive LoggingSpec (L : Type) where
  | msg : String → LoggingSpec L
  | record : Option (LogAction L) → Option (LogAction L) → LoggingSpec L
deriving DecidableEq, Repr

/-- Modelled from the spec: one entry of the conditionalHandlerChain
(spec section 3): a predicate on the error value and an action, the
action identified by a label of type L. -/
structure ChainEntry (ε L : Type) where
  ifTrue : ε → Bool
  doIt : L

/-- Modelled from the spec: a HandlerConfig (spec section 3): a return
style, an ordered conditional handler chain, and an optional default
handler (identified by a label of type L, invoked with the error). -/
structure HandlerConfig (ε L : Type) where
  returnStyle : ReturnStyle
  conditionalHandlerChain : List (ChainEntry ε L)
  defaultHandler : Option L

/-- Side-effect events an invocation executes, in order: logging a
message, calling a logging fn with params, running a chain entry's
action, or running the default handler with the error value. -/
inductive Event (ε L : Type) where
  | logMsg : String → Event ε L
  | callFn : L → List Nat → Event ε L
  | chainAction : L → Event ε L
  | defaultHandled : L → ε → Event ε L
deriving DecidableEq, Repr

variable {α ε L X : Type}

/-- Modelled from the spec: the success column of the return-style table
in section 4.1, carrying the success value v. -/
def successShape (s : ReturnStyle) (v : α) : Outcome α ε :=
  match s with
  | .FALSE_STYLE => .value v
  | .GO_STYLE => .pair none (some v)
  | .BOOLEAN => .bool true
  | .ONLY_ERROR => .exitCode 0
  | .ERROR_STYLE => .value v

/-- Modelled from the spec: the failure column of the return-style table
in section 4.1, carrying the error value e. -/
def failureShape (s : ReturnStyle) (e : ε) : Outcome α ε :=
  match s with
  | .FALSE_STYLE => .bool false
  | .GO_STYLE => .pair (some e) none
  | .BOOLEAN => .bool false
  | .ONLY_ERROR => .exitCode 1
  | .ERROR_STYLE => .errValue e

/-- Executing one LogItem produces one event. -/
def runLogItem : LogItem L → Event ε L
  | .str s => .logMsg s
  | .desc d => .callFn d.fn d.params

/-- Modelled from the spec: executing a LogAction: a string logs the
message, a descriptor invokes its fn with its params, and a sequence
executes its items in declaration order. -/
def runLogAction : LogAction L → List (Event ε L)
  | .str s => [.logMsg s]
  | .desc d => [.callFn d.fn d.params]
  | .seq items => items.map runLogItem

/-- Modelled from the spec: the events of the success step of invoke
(section 4.1 step 2): a plain-string LoggingSpec is a success-only
message; a structured record contributes its success branch, if any. -/
def successLogEvents : Option (LoggingSpec L) → List (Event ε L)
  | none => []
  | some (.msg s) => [.logMsg s]
  | some (.record s _) =>
    match s with
    | some a => runLogAction a
    | none => []

/-- Modelled from the spec: the logging events of the failure step of
invoke (section 4.1 step 3): only a structured record's error branch
contributes; a plain string is success-only and contributes nothing. -/
def errorLogEvents : Option (LoggingSpec L) → List (Event ε L)
  | none => []
  | some (.msg _) => []
  | some (.record _ e) =>
    match e with
    | some a => runLogAction a
    | none => []

/-- Modelled from the spec: the first-match-wins chain dispatch of
section 4.1 step 3: scan the chain in order; the first entry whose
predicate holds on e runs its action and stops the scan; if no entry
matches and a default handler is defined, it runs with e. -/
def runChain (chain : List (ChainEntry ε L)) (dh : Option L) (e : ε) : List (Event ε L) :=
  match chain with
  | [] =>
    match dh with
    | some h => [.defaultHandled h e]
    | none => []
  | entry :: rest =>
    if entry.ifTrue e then [.chainAction entry.doIt] else runChain rest dh e

/-- Modelled from the spec: all side-effect events of one invocation, in
execution order.  On success only the success logging runs; on failure
the chain dispatch runs first, then the error logging, orthogonally. -/
def runSideEffects (cfg : HandlerConfig ε L) (r : OpResult α ε)
    (lg : Option (LoggingSpec L)) : List (Event ε L) :=
  match r with
  | .ok _ => successLogEvents lg
  | .fail e => runChain cfg.conditionalHandlerChain cfg.defaultHandler e ++ errorLogEvents lg

/-- Modelled from the spec: invoke (section 4.1): await the operation,
classify, run side effects, and produce the Outcome in the configured
shape.  The returned pair is the Outcome together with the ordered trace
of side-effect events the invocation executes. -/
def invoke (cfg : HandlerConfig ε L) (r : OpResult α ε)
    (lg : Option (LoggingSpec L)) : Outcome α ε × List (Event ε L) :=
  match r with
  | .ok v => (successShape cfg.returnStyle v, successLogEvents lg)
  | .fail e =>
    (failureShape cfg.returnStyle e,
     runChain cfg.conditionalHandlerChain cfg.defaultHandler e ++ errorLogEvents lg)

/-- Modelled from the spec: the factory (section 4.1, createHandler),
named createAsyncHandler as in the import list of src/index.ts: it
returns the normalizer bound to the given config, a pure function of the
config with no shared state. -/
def createAsyncHandler (cfg : HandlerConfig ε L) :
    OpResult α ε → Option (LoggingSpec L) → Outcome α ε × List (Event ε L) :=
  invoke cfg

/-- The configuration of the pre-configured derived helpers: FALSE_STYLE,
no chain, no default handler (spec section 3 defaults). -/
def defaultConfig : HandlerConfig ε L :=
  ⟨.FALSE_STYLE, [], none⟩

/-- Modelled from the spec: valueOf = FALSE_STYLE with no chain. -/
def valueOf : OpResult α ε → Option (LoggingSpec L) → Outcome α ε × List (Event ε L) :=
  invoke defaultConfig

/-- Modelled from the spec: isSuccess = BOOLEAN with no chain. -/
def isSuccess : OpResult α ε → Option (LoggingSpec L) → Outcome α ε × List (Event ε L) :=
  invoke ⟨.BOOLEAN, [], none⟩

/-- Modelled from the spec: the result-object shape produced by toResult:
a record with an explicit success flag, the data or null, and the error
or null. -/
structure ResultRecord (α ε : Type) where
  success : Bool
  data : Option α
  error : Option ε
deriving DecidableEq, Repr

/-- Modelled from the spec: the shaping of toResult's result-object
style: success v gives success true with data v, failure e gives success
false with error e. -/
def toResultShape : OpResult α ε → ResultRecord α ε
  | .ok v => ⟨true, some v, none⟩
  | .fail e => ⟨false, none, some e⟩

/-- Modelled from the spec: toResult = the result-object style with no
chain; it runs the same logging side effects as the other helpers. -/
def toResult (r : OpResult α ε) (lg : Option (LoggingSpec L)) :
    ResultRecord α ε × List (Event ε L) :=
  (toResultShape r, runSideEffects defaultConfig r lg)

/-- Whether an event is a handler-dispatch event (a chain action or the
default handler) rather than a logging event. -/
def isDispatch : Event ε L → Bool
  | .chainAction _ => true
  | .defaultHandled _ _ => true
  | _ => false

/-- The handler-dispatch events of a trace, in order: the chain actions
and default-handler runs, with the logging events dropped. -/
def dispatchEvents (l : List (Event ε L)) : List (Event ε L) :=
  l.filter isDispatch

/-- How executing one event can throw: an environment assigning to each
event either normal completion (none) or a thrown exception value
(some x).  Spec section 5: a failing side effect is not caught and
propagates as an unhandled failure of the overall call. -/
def runEvents (exn : Event ε L → Option X) : List (Event ε L) → Except X Unit
  | [] => .ok ()
  | ev :: rest =>
    match exn ev with
    | some x => .error x
    | none => runEvents exn rest

/-- Modelled from the spec: invoke with side-effect exceptions threaded
through: the side-effect events execute in order before the Outcome is
produced; the first throwing one aborts the call with its exception, and
otherwise the shaped Outcome is returned normally (spec sections 5
and 7). -/
def invokeE (exn : Event ε L → Option X) (cfg : HandlerConfig ε L)
    (r : OpResult α ε) (lg : Option (LoggingSpec L)) : Except X (Outcome α ε) :=
  match runEvents exn (runSideEffects cfg r lg) with
  | .error x => .error x
  | .ok _ => .ok (invoke cfg r lg).1

/-- Modelled from the spec: the upstream RETURN_STYLES constant of
await-me-ts, as imported by src/index.ts: the object mapping each style
name to its ReturnStyle value (the five styles of the README's style
table and spec section 4.1). -/
def RETURN_STYLES : List (String × ReturnStyle) :=
  [("FALSE_STYLE", .FALSE_STYLE),
   ("GO_STYLE", .GO_STYLE),
   ("BOOLEAN", .BOOLEAN),
   ("ONLY_ERROR", .ONLY_ERROR),
   ("ERROR_STYLE", .ERROR_STYLE)]

/-- The shim's STYLES export: src/index.ts re-exports RETURN_STYLES under
the alias STYLES, with no wrapping or transformation. -/
def STYLES : List (String × ReturnStyle) :=
  RETURN_STYLES

/-- The value surface of the shim module: the five functional entries the
WaitForMe namespace object of src/index.ts carries. -/
structure ModuleSurface (α ε L : Type) where
  create :
    HandlerConfig ε L → OpResult α ε → Option (LoggingSpec L) → Outcome α ε × List (Event ε L)
  valueOf : OpResult α ε → Option (LoggingSpec L) → Outcome α ε × List (Event ε L)
  isSuccess : OpResult α ε → Option (LoggingSpec L) → Outcome α ε × List (Event ε L)
  toResult : OpResult α ε → Option (LoggingSpec L) → ResultRecord α ε × List (Event ε L)
  STYLES : List (String × ReturnStyle)

/-- The WaitForMe barrel namespace of src/index.ts: create is
createAsyncHandler, the three derived helpers are the upstream helpers,
and STYLES is RETURN_STYLES, each entry taken unwrapped. -/
def WaitForMe (α ε L : Type) : ModuleSurface α ε L :=
  ⟨createAsyncHandler, valueOf, isSuccess, toResult, RETURN_STYLES⟩

/-- Modelled from the spec: the value exports of the upstream
await-me-ts module that src/index.ts names in its import list; the
upstream implementation is not part of this repository, so its export
surface is taken from that import list. -/
def upstreamValueExports : List String :=
  ["createAsyncHandler", "RETURN_STYLES", "valueOf", "isSuccess", "toResult"]

/-- The explicit named exports of src/index.ts: the four upstream
functions under their core names, RETURN_STYLES under the alias STYLES,
and the WaitForMe namespace object. -/
def shimNamedExports : List String :=
  ["createAsyncHandler", "valueOf", "isSuccess", "toResult", "STYLES", "WaitForMe"]

/-- The names added by the wildcard re-export of src/index.ts
(export * from the upstream module): ES-module semantics re-export every
upstream export under its original name except those already exported
explicitly by the shim. -/
def starReexports : List String :=
  upstreamValueExports.filter (fun n => !(shimNamedExports.contains n))

/-- The full export-name surface of the shim module: its explicit named
exports followed by the wildcard re-exports. -/
def shimExportNames : List String :=
  shimNamedExports ++ starReexports

/-- The keys of the WaitForMe object literal of src/index.ts, in
declaration order. -/
def waitForMeKeys : List String :=
  ["create", "valueOf", "isSuccess", "toResult", "STYLES"]

/-- Executing a LogItem never produces a dispatch event. -/
theorem isDispatch_runLogItem (it : LogItem L) : isDispatch (@runLogItem ε L it) = false := by
  cases it <;> rfl

/-- A LogAction's events are pure logging: filtering for dispatch events
leaves nothing. -/
theorem dispatchEvents_runLogAction (a : LogAction L) :
    dispatchEvents (@runLogAction ε L a) = [] := by
  cases a with
  | str s => rfl
  | desc d => rfl
  | seq items =>
    simp only [runLogAction, dispatchEvents]
    rw [List.filter_eq_nil_iff]
    intro ev hev
    rcases List.mem_map.mp hev with ⟨it, _, rfl⟩
    simp [isDispatch_runLogItem]

/-- The error-branch logging events of any LoggingSpec contain no
dispatch events. -/
theorem dispatchEvents_errorLogEvents (lg : Option (LoggingSpec L)) :
    dispatchEvents (@errorLogEvents ε L lg) = [] := by
  match lg with
  | none => rfl
  | some (.msg _) => rfl
  | some (.record _ none) => rfl
  | some (.record _ (some a)) => exact dispatchEvents_runLogAction a

/-- Filtering for dispatch events distributes over trace concatenation. -/
theorem dispatchEvents_append (l1 l2 : List (Event ε L)) :
    dispatchEvents (l1 ++ l2) = dispatchEvents l1 ++ dispatchEvents l2 := by
  simp [dispatchEvents]

/-- When every entry before some entry rejects e and that entry accepts
it, the chain dispatch is exactly that entry's action. -/
theorem runChain_first_match (pre : List (ChainEntry ε L)) (entry : ChainEntry ε L)
    (post : List (ChainEntry ε L)) (dh : Option L) (e : ε)
    (hpre : ∀ x ∈ pre, x.ifTrue e = false) (hok : entry.ifTrue e = true) :
    runChain (pre ++ entry :: post) dh e = [Event.chainAction entry.doIt] := by
  induction pre with
  | nil => simp [runChain, hok]
  | cons x xs ih =>
    have hx : x.ifTrue e = false := hpre x (List.mem_cons_self x xs)
    simpa [runChain, hx] using ih (fun y hy => hpre y (List.mem_cons_of_mem x hy))

/-- When no chain entry accepts e, the chain dispatch is the default
handler alone (or nothing when it is undefined). -/
theorem runChain_no_match (chain : List (ChainEntry ε L)) (dh : Option L) (e : ε)
    (h : ∀ x ∈ chain, x.ifTrue e = false) :
    runChain chain dh e =
      match dh with
      | some hd => [Event.defaultHandled hd e]
      | none => [] := by
  induction chain with
  | nil => rfl
  | cons x xs ih =>
    have hx : x.ifTrue e = false := h x (List.mem_cons_self x xs)
    simpa [runChain, hx] using ih (fun y hy => h y (List.mem_cons_of_mem x hy))

/-- When some chain entry accepts e, the chain dispatch is a single
chain-action event. -/
theorem runChain_match_exists (chain : List (ChainEntry ε L)) (dh : Option L) (e : ε)
    (h : ∃ x ∈ chain, x.ifTrue e = true) :
    ∃ a, runChain chain dh e = [Event.chainAction a] := by
  induction chain with
  | nil =>
    rcases h with ⟨x, hx, _⟩
    exact absurd hx (List.not_mem_nil x)
  | cons x xs ih =>
    by_cases hx : x.ifTrue e = true
    · exact ⟨x.doIt, by simp [runChain, hx]⟩
    · rcases h with ⟨y, hy, hyt⟩
      rcases List.mem_cons.mp hy with rfl | hy'
      · exact absurd hyt hx
      · have hxf : x.ifTrue e = false := by
          cases hb : x.ifTrue e with
          | true => exact absurd hb hx
          | false => rfl
        rcases ih ⟨y, hy', hyt⟩ with ⟨a, ha⟩
        exact ⟨a, by simp [runChain, hxf, ha]⟩

/-- Running a trace completes normally exactly when none of its events
throws. -/
theorem runEvents_ok_iff (exn : Event ε L → Option X) (l : List (Event ε L)) :
    runEvents exn l = .ok () ↔ ∀ ev ∈ l, exn ev = none := by
  induction l with
  | nil => simp [runEvents]
  | cons ev rest ih =>
    cases hev : exn ev with
    | some x => simp [runEvents, hev]
    | none => simp [runEvents, hev, ih]

/-- Running a trace aborts with some exception exactly when some of its
events throws. -/
theorem runEvents_error_iff (exn : Event ε L → Option X) (l : List (Event ε L)) :
    (∃ x, runEvents exn l = .error x) ↔ ∃ ev ∈ l, exn ev ≠ none := by
  constructor
  · rintro ⟨x, hx⟩
    by_contra hno
    push_neg at hno
    rw [(runEvents_ok_iff exn l).mpr hno] at hx
    exact Except.noConfusion hx
  · intro h
    cases hr : runEvents exn l with
    | error x => exact ⟨x, rfl⟩
    | ok u =>
      cases u
      rcases h with ⟨ev, hmem, hne⟩
      exact absurd ((runEvents_ok_iff exn l).mp hr ev hmem) hne

/-- Claim C1: for every ReturnStyle and every invocation, a succeeding
operation with value v yields the style's documented success shape
carrying v unmodified (FALSE_STYLE: v; GO_STYLE: (null, v); BOOLEAN:
true; ONLY_ERROR: 0; ERROR_STYLE: v), and a failing operation with error
e yields the style's documented failure shape (FALSE_STYLE: false;
GO_STYLE: (e, null); BOOLEAN: false; ONLY_ERROR: 1; ERROR_STYLE: e
itself). -/
theorem return_style_shapes (chain : List (ChainEntry ε L)) (dh : Option L)
    (v : α) (e : ε) (lg lg' : Option (LoggingSpec L)) :
    (invoke ⟨.FALSE_STYLE, chain, dh⟩ (OpResult.ok v) lg).1 = Outcome.value v
    ∧ (invoke ⟨.FALSE_STYLE, chain, dh⟩ ((OpResult.fail e : OpResult α ε)) lg').1
        = Outcome.bool false
    ∧ (invoke ⟨.GO_STYLE, chain, dh⟩ (OpResult.ok v) lg).1 = Outcome.pair none (some v)
    ∧ (invoke ⟨.GO_STYLE, chain, dh⟩ ((OpResult.fail e : OpResult α ε)) lg').1
        = Outcome.pair (some e) none
    ∧ (invoke ⟨.BOOLEAN, chain, dh⟩ (OpResult.ok v) lg).1 = Outcome.bool true
    ∧ (invoke ⟨.BOOLEAN, chain, dh⟩ ((OpResult.fail e : OpResult α ε)) lg').1
        = Outcome.bool false
    ∧ (invoke ⟨.ONLY_ERROR, chain, dh⟩ (OpResult.ok v) lg).1 = Outcome.exitCode 0
    ∧ (invoke ⟨.ONLY_ERROR, chain, dh⟩ ((OpResult.fail e : OpResult α ε)) lg').1
        = Outcome.exitCode 1
    ∧ (invoke ⟨.ERROR_STYLE, chain, dh⟩ (OpResult.ok v) lg).1 = Outcome.value v
    ∧ (invoke ⟨.ERROR_STYLE, chain, dh⟩ ((OpResult.fail e : OpResult α ε)) lg').1
        = Outcome.errValue e :=
  ⟨rfl, rfl, rfl, rfl, rfl, rfl, rfl, rfl, rfl, rfl⟩

/-- Claim C2: for a failing operation, the chain is evaluated in order
and exactly the action of the first entry whose predicate accepts the
error runs: when every entry before some entry rejects e and that entry
accepts it, the dispatch events of the invocation are exactly that one
chain action — no later entry's action and no default handler. -/
theorem chain_first_match_wins (style : ReturnStyle) (pre : List (ChainEntry ε L))
    (entry : ChainEntry ε L) (post : List (ChainEntry ε L)) (dh : Option L)
    (e : ε) (lg : Option (LoggingSpec L))
    (hpre : ∀ x ∈ pre, x.ifTrue e = false) (hok : entry.ifTrue e = true) :
    dispatchEvents
        (invoke ⟨style, pre ++ entry :: post, dh⟩ ((OpResult.fail e : OpResult α ε)) lg).2
      = [Event.chainAction entry.doIt] := by
  show dispatchEvents (runChain (pre ++ entry :: post) dh e ++ errorLogEvents lg) = _
  rw [dispatchEvents_append, runChain_first_match pre entry post dh e hpre hok,
    dispatchEvents_errorLogEvents]
  rfl

/-- Witness for claim C2 at a concrete input: a two-entry chain whose
predicates both accept the error 5, with a default handler installed;
only the first entry's action (label 1) runs. -/
theorem chain_first_match_wins_witness :
    dispatchEvents
        (invoke (⟨ReturnStyle.FALSE_STYLE,
            [⟨fun n => decide (0 < n), 1⟩, ⟨fun n => decide (0 < n), 2⟩],
            some 9⟩ : HandlerConfig Nat Nat)
          (OpResult.fail (5 : Nat) : OpResult Nat Nat) none).2
      = [Event.chainAction 1] :=
  @chain_first_match_wins Nat Nat Nat ReturnStyle.FALSE_STYLE []
    ⟨fun n => decide (0 < n), 1⟩ [⟨fun n => decide (0 < n), 2⟩] (some 9) 5 none
    (fun x hx => absurd hx (List.not_mem_nil x)) (by decide)

/-- Claim C3: for a failing operation and a defined defaultHandler, the
default handler runs with the error, exactly once, precisely when no
chain entry's predicate accepts the error (the empty chain included). -/
theorem default_handler_iff_no_match (style : ReturnStyle)
    (chain : List (ChainEntry ε L)) (hd : L) (e : ε) (lg : Option (LoggingSpec L)) :
    (∀ x ∈ chain, x.ifTrue e = false) ↔
      dispatchEvents (invoke ⟨style, chain, some hd⟩ ((OpResult.fail e : OpResult α ε)) lg).2
        = [Event.defaultHandled hd e] := by
  constructor
  · intro h
    show dispatchEvents (runChain chain (some hd) e ++ errorLogEvents lg) = _
    rw [dispatchEvents_append, runChain_no_match chain (some hd) e h,
      dispatchEvents_errorLogEvents]
    rfl
  · intro h
    by_contra hno
    push_neg at hno
    rcases hno with ⟨x, hx, hxt⟩
    have hxt' : x.ifTrue e = true := by
      cases hb : x.ifTrue e with
      | true => rfl
      | false => exact absurd hb hxt
    rcases runChain_match_exists chain (some hd) e ⟨x, hx, hxt'⟩ with ⟨a, ha⟩
    have hres : dispatchEvents
        (invoke ⟨style, chain, some hd⟩ ((OpResult.fail e : OpResult α ε)) lg).2
        = [Event.chainAction a] := by
      show dispatchEvents (runChain chain (some hd) e ++ errorLogEvents lg) = _
      rw [dispatchEvents_append, ha, dispatchEvents_errorLogEvents]
      rfl
    rw [hres] at h
    simp at h

/-- Witness for claim C3 at a concrete input: an empty chain with default
handler 7 on error 3 dispatches exactly one default-handler run with
that error. -/
theorem default_handler_iff_no_match_witness :
    dispatchEvents (invoke (⟨ReturnStyle.GO_STYLE, [], some 7⟩ : HandlerConfig Nat Nat)
        (OpResult.fail (3 : Nat) : OpResult Nat Nat) none).2
      = [Event.defaultHandled 7 3] :=
  (@default_handler_iff_no_match Nat Nat Nat ReturnStyle.GO_STYLE [] 7 3 none).mp
    (fun x hx => absurd hx (List.not_mem_nil x))

/-- Claim C4: for a failing operation under a structured logging spec
with both branches, the whole trace is the chain dispatch followed by the
error branch's actions in declaration order — so the error branch runs
whatever the chain did, and the success branch contributes nothing: the
trace does not depend on it. -/
theorem error_logging_orthogonal (cfg : HandlerConfig ε L) (e : ε)
    (sAct sAct' eAct : LogAction L) :
    (invoke cfg ((OpResult.fail e : OpResult α ε))
        (some (.record (some sAct) (some eAct)))).2
      = runChain cfg.conditionalHandlerChain cfg.defaultHandler e ++ runLogAction eAct
    ∧ (invoke cfg ((OpResult.fail e : OpResult α ε))
        (some (.record (some sAct) (some eAct)))).2
      = (invoke cfg ((OpResult.fail e : OpResult α ε))
          (some (.record (some sAct') (some eAct)))).2 :=
  ⟨rfl, rfl⟩

/-- Claim C5: valueOf is the pre-configured FALSE_STYLE normalizer with
no chain: on success it returns the value and on failure it returns the
literal false, whatever the error was. -/
theorem valueOf_spec (v : α) (e : ε) (lg lg' : Option (LoggingSpec L)) :
    @valueOf α ε L = createAsyncHandler ⟨ReturnStyle.FALSE_STYLE, [], none⟩
    ∧ (valueOf (OpResult.ok v : OpResult α ε) lg).1 = Outcome.value v
    ∧ (valueOf (OpResult.fail e : OpResult α ε) lg').1 = Outcome.bool false :=
  ⟨rfl, rfl, rfl⟩

/-- Claim C6: toResult on a succeeding operation with value 0 yields the
record with success true, data 0 and error null, and that record differs
from the record of every failing operation, whose success flag is
false — a falsy success value stays distinguishable from failure. -/
theorem toResult_success_zero (e : ε) (lg lg' : Option (LoggingSpec L)) :
    (toResult (OpResult.ok 0 : OpResult Nat ε) lg).1 = ⟨true, some 0, none⟩
    ∧ ((toResult (OpResult.fail e : OpResult Nat ε) lg').1).success = false
    ∧ (toResult (OpResult.ok 0 : OpResult Nat ε) lg).1
        ≠ (toResult (OpResult.fail e : OpResult Nat ε) lg').1 := by
  refine ⟨rfl, rfl, ?_⟩
  intro h
  simp [toResult, toResultShape] at h

/-- Claim C7: on a failing operation the normalizer itself never throws:
when no side-effect event of the invocation throws, the call returns the
failure-shaped Outcome normally, and the call aborts with an exception
precisely when some side-effect event throws. -/
theorem invoke_no_throw (exn : Event ε L → Option X) (cfg : HandlerConfig ε L)
    (e : ε) (lg : Option (LoggingSpec L)) :
    ((∀ ev ∈ runSideEffects cfg ((OpResult.fail e : OpResult α ε)) lg, exn ev = none) →
      invokeE exn cfg ((OpResult.fail e : OpResult α ε)) lg
        = .ok ((failureShape cfg.returnStyle e : Outcome α ε)))
    ∧ ((∃ x, invokeE exn cfg ((OpResult.fail e : OpResult α ε)) lg = .error x) ↔
      ∃ ev ∈ runSideEffects cfg ((OpResult.fail e : OpResult α ε)) lg, exn ev ≠ none) := by
  constructor
  · intro h
    have hok := (runEvents_ok_iff exn _).mpr h
    unfold invokeE
    rw [hok]
    rfl
  · constructor
    · rintro ⟨x, hx⟩
      rw [← runEvents_error_iff exn (runSideEffects cfg ((OpResult.fail e : OpResult α ε)) lg)]
      unfold invokeE at hx
      cases hr : runEvents exn (runSideEffects cfg ((OpResult.fail e : OpResult α ε)) lg) with
      | error y => exact ⟨y, rfl⟩
      | ok u =>
        rw [hr] at hx
        simp at hx
    · intro h
      rcases (runEvents_error_iff exn _).mpr h with ⟨x, hx⟩
      refine ⟨x, ?_⟩
      unfold invokeE
      rw [hx]

/-- Witness for claim C7 at a concrete input: with no throwing side
effect, invoking a FALSE_STYLE handler on the failing operation with
error 5 returns the failure shape false normally. -/
theorem invoke_no_throw_witness :
    invokeE (fun _ => (none : Option Nat))
        (⟨ReturnStyle.FALSE_STYLE, [], none⟩ : HandlerConfig Nat Nat)
        (OpResult.fail (5 : Nat) : OpResult Nat Nat) none
      = .ok (Outcome.bool false) :=
  (@invoke_no_throw Nat Nat Nat Nat (fun _ => none)
    ⟨ReturnStyle.FALSE_STYLE, [], none⟩ 5 none).1 (fun _ _ => rfl)

/-- Claim C8: a handler's configuration is fixed: the factory is a pure
function of its config, and two handlers configured with different
return styles, invoked on the same failing operation, each produce their
own documented failure shape. -/
theorem handler_instances_independent (cfg1 cfg2 : HandlerConfig ε L) (e : ε)
    (lg1 lg2 : Option (LoggingSpec L))
    (_hz : cfg1.returnStyle ≠ cfg2.returnStyle) :
    (createAsyncHandler cfg1 ((OpResult.fail e : OpResult α ε)) lg1).1
        = failureShape cfg1.returnStyle e
    ∧ (createAsyncHandler cfg2 ((OpResult.fail e : OpResult α ε)) lg2).1
        = failureShape cfg2.returnStyle e
    ∧ @createAsyncHandler α ε L cfg1 = invoke cfg1
    ∧ @createAsyncHandler α ε L cfg2 = invoke cfg2 :=
  ⟨rfl, rfl, rfl, rfl⟩

/-- Witness for claim C8 at a concrete input: a FALSE_STYLE handler and a
GO_STYLE handler invoked on the same failing operation with error 4
produce false and the pair (4, null) respectively. -/
theorem handler_instances_independent_witness :
    (createAsyncHandler (⟨ReturnStyle.FALSE_STYLE, [], none⟩ : HandlerConfig Nat Nat)
        (OpResult.fail (4 : Nat) : OpResult Nat Nat) none).1 = Outcome.bool false
    ∧ (createAsyncHandler (⟨ReturnStyle.GO_STYLE, [], none⟩ : HandlerConfig Nat Nat)
        (OpResult.fail (4 : Nat) : OpResult Nat Nat) none).1 = Outcome.pair (some 4) none :=
  ⟨(@handler_instances_independent Nat Nat Nat ⟨ReturnStyle.FALSE_STYLE, [], none⟩
      ⟨ReturnStyle.GO_STYLE, [], none⟩ 4 none none (by decide)).1,
   (@handler_instances_independent Nat Nat Nat ⟨ReturnStyle.FALSE_STYLE, [], none⟩
      ⟨ReturnStyle.GO_STYLE, [], none⟩ 4 none none (by decide)).2.1⟩

/-- Claim C9: the shim republishes the upstream values untouched: STYLES
is the upstream RETURN_STYLES itself, every entry of the WaitForMe
namespace is the corresponding named export itself, and calling through
the namespace gives the same outcome as calling the named export on
every input. -/
theorem shim_reexport_identity :
    STYLES = RETURN_STYLES
    ∧ (WaitForMe α ε L).STYLES = RETURN_STYLES
    ∧ (WaitForMe α ε L).create = @createAsyncHandler α ε L
    ∧ (WaitForMe α ε L).valueOf = @valueOf α ε L
    ∧ (WaitForMe α ε L).isSuccess = @isSuccess α ε L
    ∧ (WaitForMe α ε L).toResult = @toResult α ε L
    ∧ ∀ (cfg : HandlerConfig ε L) (r : OpResult α ε) (lg : Option (LoggingSpec L)),
        (WaitForMe α ε L).create cfg r lg = createAsyncHandler cfg r lg
        ∧ (WaitForMe α ε L).valueOf r lg = valueOf r lg
        ∧ (WaitForMe α ε L).isSuccess r lg = isSuccess r lg
        ∧ (WaitForMe α ε L).toResult r lg = toResult r lg :=
  ⟨rfl, rfl, rfl, rfl, rfl, rfl, fun _ _ _ => ⟨rfl, rfl, rfl, rfl⟩⟩

/-- Claim C10: the shim's export surface is exactly the five named
exports plus the WaitForMe namespace object, with the wildcard re-export
adding the remaining upstream name RETURN_STYLES (whose value is STYLES);
the namespace object has exactly the five documented keys; the factory is
exposed as createAsyncHandler and as the namespace key create, and no
export is named createHandler. -/
theorem shim_export_surface :
    shimExportNames
      = ["createAsyncHandler", "valueOf", "isSuccess", "toResult", "STYLES", "WaitForMe",
         "RETURN_STYLES"]
    ∧ "RETURN_STYLES" ∈ shimExportNames
    ∧ STYLES = RETURN_STYLES
    ∧ waitForMeKeys = ["create", "valueOf", "isSuccess", "toResult", "STYLES"]
    ∧ "createAsyncHandler" ∈ shimExportNames
    ∧ "create" ∈ waitForMeKeys
    ∧ (WaitForMe Nat Nat Nat).create = @createAsyncHandler Nat Nat Nat
    ∧ "createHandler" ∉ shimExportNames
    ∧ "createHandler" ∉ waitForMeKeys := by
  refine ⟨by decide, by decide, rfl, rfl, by decide, by decide, rfl, by decide, by decide⟩

end AwaitMe
